import Mathlib

/-!
Shallow embedding of the SmartSDLC direct Watsonx HTTP client
(`watsonx_direct_api.py`, and the duplicated class in
`watsonx_integration.py`), together with proofs of the specification
claims about it.

Conventions of the embedding:
* Python JSON values (the results of `json.loads` and the dict/list
  literals built by the code) are modelled by the inductive `Json`.
* Wall-clock time (`time.time()`) is a natural number of seconds passed
  in explicitly; within one call both reads of the clock observe the
  same instant, which is the granularity at which the spec reasons.
* HTTP effects are modelled by explicit outcome values supplied by the
  environment (`IdentityOutcome` for the IAM identity endpoint,
  `GenOutcome` for the generation endpoint), and each operation returns,
  besides its result, the mutated client state and a record of the
  requests it issued.
* Python exceptions that escape a method are modelled with `Except`;
  exceptions caught inside a method are modelled by the corresponding
  `except` branch of the embedding.
-/

/-- Python JSON values: the possible results of `json.loads` and the
payload dict/list literals constructed by the client.  Numbers are
modelled as rationals (the code performs no arithmetic on them, it only
selects and transports them). -/
inductive Json where
  | null : Json
  | bool : Bool → Json
  | num : ℚ → Json
  | str : String → Json
  | arr : List Json → Json
  | obj : List (String × Json) → Json

/-- Python truthiness of a JSON value (`bool(v)`): `None`, `False`, `0`,
`""`, `[]`, `{}` (written with escapes) are falsy, everything else truthy. -/
def jsonTruthy : Json → Bool
  | Json.null => false
  | Json.bool b => b
  | Json.num q => q ≠ 0
  | Json.str s => s ≠ ""
  | Json.arr xs => ¬ xs.isEmpty
  | Json.obj kvs => ¬ kvs.isEmpty

/-- Last-binding association lookup: Python dicts keep one value per key,
the last one written, so `d.get(k)` / `d[k]` is modelled by looking the
key up in the reversed association list. -/
def dictLookup (kvs : List (String × Json)) (k : String) : Option Json :=
  (kvs.reverse.find? (fun kv => kv.1 = k)).map (·.2)

/-- `d.get(k)` on a JSON value: `none` models Python `None` for a missing
key, and also for `.get` applied to a non-dict (the code only applies it
to parsed response bodies). -/
def dictGet : Json → String → Option Json
  | Json.obj kvs, k => dictLookup kvs k
  | _, _ => none

mutual

/-- Python `str()` of a decoded JSON value, used when the code
interpolates a parsed body into an error f-string
(approximate on numbers: integers render exactly, non-integers render as
`num/den`, where Python would render a float). -/
def pyRepr : Json → String
  | Json.null => "None"
  | Json.bool true => "True"
  | Json.bool false => "False"
  | Json.num q => if q.den = 1 then toString q.num else toString q.num ++ "/" ++ toString q.den
  | Json.str s => "\x27" ++ s ++ "\x27"
  | Json.arr xs => "[" ++ pyReprElems xs ++ "]"
  | Json.obj kvs => "\x7b" ++ pyReprMembers kvs ++ "\x7d"

/-- Comma-separated rendering of the elements of a JSON array. -/
def pyReprElems : List Json → String
  | [] => ""
  | [x] => pyRepr x
  | x :: xs => pyRepr x ++ ", " ++ pyReprElems xs

/-- Comma-separated rendering of the members of a JSON object. -/
def pyReprMembers : List (String × Json) → String
  | [] => ""
  | [kv] => "\x27" ++ kv.1 ++ "\x27: " ++ pyRepr kv.2
  | kv :: kvs => "\x27" ++ kv.1 ++ "\x27: " ++ pyRepr kv.2 ++ ", " ++ pyReprMembers kvs

end

/-! ### A model of Python `json.loads`

A recursive-descent parser for the JSON fragment the application
exchanges (null / booleans / decimal numbers with optional exponent /
strings with the single-character escapes / arrays / objects), faithful
to `json.loads` on that fragment: the whole input, up to surrounding
JSON whitespace, must be consumed.  Inputs outside the fragment (e.g.
`\u` escapes) are rejected, where Python would accept some of them;
every claim below that depends on a successful parse evaluates the
parser on a concrete input inside the fragment. -/

/-- Skip JSON whitespace (space, tab, newline, carriage return). -/
def skipWs : List Char → List Char
  | c :: cs => if c = ' ' ∨ c = '\t' ∨ c = '\n' ∨ c = '\r' then skipWs cs else c :: cs
  | [] => []

/-- Parse the characters of a JSON string after the opening quote,
returning the decoded characters and the rest of the input after the
closing quote. -/
def parseStrChars : List Char → Option (List Char × List Char)
  | [] => none
  | '"' :: rest => some ([], rest)
  | '\\' :: e :: rest =>
      (match e with
        | '"' => some '"'
        | '\\' => some '\\'
        | '/' => some '/'
        | 'b' => some (Char.ofNat 8)
        | 'f' => some (Char.ofNat 12)
        | 'n' => some '\n'
        | 'r' => some '\r'
        | 't' => some '\t'
        | _ => none).bind (fun c =>
          (parseStrChars rest).map (fun p : List Char × List Char => (c :: p.1, p.2)))
  | ['\\'] => none
  | c :: rest =>
      (parseStrChars rest).map (fun p : List Char × List Char => (c :: p.1, p.2))

/-- Leading run of decimal digits. -/
def spanDigits (cs : List Char) : List Char × List Char :=
  match cs with
  | c :: rest =>
      if c.isDigit then
        let p := spanDigits rest
        (c :: p.1, p.2)
      else ([], cs)
  | [] => ([], [])

/-- Numeric value of a digit run. -/
def digitsToNat (ds : List Char) : ℕ :=
  ds.foldl (fun acc c => acc * 10 + (c.toNat - 48)) 0

/-- Parse a JSON number (optional minus, integer part, optional decimal
fraction, optional exponent) into a rational. -/
def parseNumber (cs : List Char) : Option (ℚ × List Char) :=
  let (neg, cs1) := match cs with
    | '-' :: rest => (true, rest)
    | _ => (false, cs)
  let (ip, cs2) := spanDigits cs1
  if ip.isEmpty then none else
  let (fp, cs3) := match cs2 with
    | '.' :: rest =>
        let p := spanDigits rest
        if p.1.isEmpty then ([], cs2) else (p.1, p.2)
    | _ => ([], cs2)
  let (hasExp, expNeg, ed, cs4) := match cs3 with
    | 'e' :: '-' :: rest => (true, true, (spanDigits rest).1, (spanDigits rest).2)
    | 'e' :: '+' :: rest => (true, false, (spanDigits rest).1, (spanDigits rest).2)
    | 'e' :: rest => (true, false, (spanDigits rest).1, (spanDigits rest).2)
    | 'E' :: '-' :: rest => (true, true, (spanDigits rest).1, (spanDigits rest).2)
    | 'E' :: '+' :: rest => (true, false, (spanDigits rest).1, (spanDigits rest).2)
    | 'E' :: rest => (true, false, (spanDigits rest).1, (spanDigits rest).2)
    | _ => (false, false, [], cs3)
  if hasExp ∧ ed.isEmpty then none else
  let mantissa : ℚ := (digitsToNat ip : ℚ) + (digitsToNat fp : ℚ) / ((10 : ℚ) ^ fp.length)
  let scaled : ℚ := if hasExp then
      (if expNeg then mantissa / (10 : ℚ) ^ (digitsToNat ed) else mantissa * (10 : ℚ) ^ (digitsToNat ed))
    else mantissa
  some ((if neg then -scaled else scaled), cs4)

mutual

/-- Parse one JSON value; `fuel` bounds the recursion depth/steps and is
instantiated large enough for any input in `json_loads`. -/
def parseValue : ℕ → List Char → Option (Json × List Char)
  | 0, _ => none
  | fuel + 1, cs =>
    match skipWs cs with
    | 'n' :: 'u' :: 'l' :: 'l' :: rest => some (Json.null, rest)
    | 't' :: 'r' :: 'u' :: 'e' :: rest => some (Json.bool true, rest)
    | 'f' :: 'a' :: 'l' :: 's' :: 'e' :: rest => some (Json.bool false, rest)
    | '"' :: rest => (parseStrChars rest).map (fun p => (Json.str (String.mk p.1), p.2))
    | '\x7b' :: rest =>
        (match skipWs rest with
          | '\x7d' :: rest2 => some (Json.obj [], rest2)
          | cs2 => (parseMembers fuel cs2).map (fun p => (Json.obj p.1, p.2)))
    | '[' :: rest =>
        (match skipWs rest with
          | ']' :: rest2 => some (Json.arr [], rest2)
          | cs2 => (parseElems fuel cs2).map (fun p => (Json.arr p.1, p.2)))
    | cs1 => (parseNumber cs1).map (fun p => (Json.num p.1, p.2))
termination_by structural fuel => fuel

/-- Parse the non-empty member list of a JSON object, consuming the
closing brace. -/
def parseMembers : ℕ → List Char → Option (List (String × Json) × List Char)
  | 0, _ => none
  | fuel + 1, cs =>
    match skipWs cs with
    | '"' :: rest =>
        (parseStrChars rest).bind (fun kp =>
          match skipWs kp.2 with
          | ':' :: rest2 =>
              (parseValue fuel rest2).bind (fun vp =>
                match skipWs vp.2 with
                | ',' :: rest3 =>
                    (parseMembers fuel rest3).map (fun mp =>
                      ((String.mk kp.1, vp.1) :: mp.1, mp.2))
                | '\x7d' :: rest3 => some ([(String.mk kp.1, vp.1)], rest3)
                | _ => none)
          | _ => none)
    | _ => none
termination_by structural fuel => fuel

/-- Parse the non-empty element list of a JSON array, consuming the
closing bracket. -/
def parseElems : ℕ → List Char → Option (List Json × List Char)
  | 0, _ => none
  | fuel + 1, cs =>
      (parseValue fuel cs).bind (fun vp =>
        match skipWs vp.2 with
        | ',' :: rest => (parseElems fuel rest).map (fun ep => (vp.1 :: ep.1, ep.2))
        | ']' :: rest => some ([vp.1], rest)
        | _ => none)
termination_by structural fuel => fuel

end

/-- Model of Python `json.loads` on the fragment described above:
parse one value and require only JSON whitespace to remain. -/
def json_loads (s : String) : Option Json :=
  match parseValue (2 * s.length + 8) s.toList with
  | some (v, rest) => if (skipWs rest).isEmpty then some v else none
  | none => none


/-! ### Client state and the token manager

Embedding of `WatsonxDirectAPI.__init__` and
`WatsonxDirectAPI._get_access_token` from `watsonx_direct_api.py`
(the class duplicated in `watsonx_integration.py` is byte-identical
except for `chat_assistant`, embedded further below). -/

/-- Immutable per-instance configuration set by `__init__`:
`api_key`, `project_id`, `url` (after `rstrip('/')`), `model_id`. -/
structure ClientConfig where
  api_key : String
  project_id : String
  url : String
  model_id : String

/-- The mutable token cache of a client instance: `self.access_token`
(initially `None`) and `self.token_expiry` (initially `0`).  The cached
token is whatever Python value `token_data.get("access_token")`
produced, hence an optional JSON value. -/
structure TokenState where
  access_token : Option Json
  token_expiry : ℕ

/-- Python `s.rstrip('/')`. -/
def rstripSlash (s : String) : String :=
  String.mk ((s.toList.reverse.dropWhile (fun c => c = '/')).reverse)

/-- `WatsonxDirectAPI.__init__` (lines 13-28): store the configuration
with the URL stripped of trailing slashes, and start with no cached
token and `token_expiry = 0`. -/
def client_init (api_key project_id url model_id : String) : ClientConfig × TokenState :=
  ({ api_key := api_key, project_id := project_id, url := rstripSlash url, model_id := model_id },
   { access_token := none, token_expiry := 0 })

/-- Environment-chosen outcome of the `requests.post` to
`https://iam.cloud.ibm.com/identity/token` followed by
`response.raise_for_status()` and `response.json()`:
* `transportError m`: the POST or `raise_for_status()` raised a
  `requests.exceptions.RequestException` (connection error, timeout, or
  non-2xx HTTP status); `m` is Python `str` of the exception;
* `badJson m`: 2xx status but the body is not valid JSON, so
  `response.json()` raised; with the `requests>=2.31.0` pinned by
  `install.py`, that exception is `requests.exceptions.JSONDecodeError`,
  a subclass of both `json.JSONDecodeError` and (via `InvalidJSONError`)
  `requests.exceptions.RequestException`; `m` is Python `str` of it;
* `ok body`: 2xx status with JSON `body`. -/
inductive IdentityOutcome where
  | transportError : String → IdentityOutcome
  | badJson : String → IdentityOutcome
  | ok : Json → IdentityOutcome

/-- The exceptions `_get_access_token` can raise:
`Exception(f"Authentication failed: {e}")` (line 73, braces of the
f-string elided) and `ValueError("No access token received from IBM
IAM")` (line 67), which no `except` clause of the method matches.
The `except json.JSONDecodeError` clause (lines 74-76, which would
raise `Exception("Invalid response from authentication service")`) is
dead code under the pinned `requests>=2.31.0`: `response.json()` raises
`requests.exceptions.JSONDecodeError`, a `RequestException` subclass,
which the FIRST handler (line 71) catches — so a non-JSON identity body
is raised as `authFailed` as well. -/
inductive AuthException where
  | authFailed : String → AuthException
  | noToken : AuthException

/-- Python `str(e)` of an `AuthException`, as observed by the
`except Exception` handler of `generate_text`. -/
def authExcMsg : AuthException → String
  | AuthException.authFailed m => "Authentication failed: " ++ m
  | AuthException.noToken => "No access token received from IBM IAM"

/-- Result of one `_get_access_token` call: the returned token or the
raised exception, the token cache afterwards, and how many POSTs to the
identity endpoint were issued (attempted) during the call. -/
structure AuthResult where
  result : Except AuthException Json
  state : TokenState
  identityRequests : ℕ

/-- The cached-token guard `self.access_token and time.time() <
self.token_expiry` of line 38 (Python truthiness on the cached value). -/
def tokenValid (st : TokenState) (now : ℕ) : Bool :=
  (st.access_token.elim false jsonTruthy) && decide (now < st.token_expiry)

/-- Embedding of `WatsonxDirectAPI._get_access_token` (lines 30-76):
return the cached token when the guard of line 38 holds; otherwise POST
to the identity endpoint, store `token_data.get("access_token")` as the
new cached token, set `token_expiry` to `now + 3000`, and return the
token — raising instead when the POST fails, the body is not JSON
(caught, under the pinned `requests>=2.31.0`, by the
`RequestException` handler of line 71, as explained at
`AuthException`), or the stored token is falsy (`if not
self.access_token`, line 66; note the expiry was already advanced on
line 64 before that check). -/
def get_access_token (st : TokenState) (now : ℕ) (env : IdentityOutcome) : AuthResult :=
  if tokenValid st now then
    { result := Except.ok (st.access_token.getD Json.null), state := st, identityRequests := 0 }
  else
    match env with
    | IdentityOutcome.transportError m =>
        { result := Except.error (AuthException.authFailed m), state := st, identityRequests := 1 }
    | IdentityOutcome.badJson m =>
        { result := Except.error (AuthException.authFailed m), state := st, identityRequests := 1 }
    | IdentityOutcome.ok body =>
        let tok := dictGet body "access_token"
        let st1 : TokenState := { access_token := tok, token_expiry := now + 3000 }
        if tok.elim false jsonTruthy then
          { result := Except.ok (tok.getD Json.null), state := st1, identityRequests := 1 }
        else
          { result := Except.error AuthException.noToken, state := st1, identityRequests := 1 }

/-! ### `generate_text` -/

/-- Environment-chosen outcome of the `requests.post` to the generation
endpoint inside `generate_text`:
* `httpError detail text m`: `raise_for_status()` raised an `HTTPError`
  whose `str` is `m`; `detail` is the response body parsed as JSON when
  `http_err.response.json()` succeeds (`none` when it raises, in which
  case `text` is `http_err.response.text`);
* `connectionError m` / `timeoutError m`: the POST raised a
  `ConnectionError` / `Timeout`;
* `badJson m`: 2xx status but `response.json()` raised;
* `ok body`: 2xx status with JSON `body`. -/
inductive GenOutcome where
  | httpError : Option Json → String → String → GenOutcome
  | connectionError : String → GenOutcome
  | timeoutError : String → GenOutcome
  | badJson : String → GenOutcome
  | ok : Json → GenOutcome

/-- Environment for one `generate_text` call: the outcome the identity
endpoint would give (if a refresh POST is made) and the outcome the
generation endpoint would give (if the generation POST is reached). -/
structure GenEnv where
  identity : IdentityOutcome
  gen : GenOutcome

/-- Result of one `generate_text` call: the returned string (the method
catches every exception), the token cache afterwards, and the requests
issued: a count of identity-endpoint POSTs and the list of payloads
POSTed (attempted) to the generation endpoint. -/
structure GenResult where
  output : String
  state : TokenState
  identityRequests : ℕ
  genRequests : List Json

/-- The `parameters` dict of `generate_text` (lines 103-111): greedy
decoding, and temperature `0.1` when `type_of_request == "classify"`,
otherwise the caller-supplied `temperature`. -/
def mkParameters (max_tokens : ℕ) (type_of_request : String) (temperature : ℚ) : Json :=
  Json.obj
    [("decoding_method", Json.str "greedy"),
     ("max_new_tokens", Json.num (max_tokens : ℚ)),
     ("min_new_tokens", Json.num 1),
     ("stop_sequences", Json.arr []),
     ("temperature", Json.num (if type_of_request = "classify" then 1/10 else temperature)),
     ("top_k", Json.num 50),
     ("top_p", Json.num 1)]

/-- The request body `payload` of `generate_text` (lines 113-118). -/
def mkPayload (cfg : ClientConfig) (prompt type_of_request : String)
    (max_tokens : ℕ) (temperature : ℚ) : Json :=
  Json.obj
    [("model_id", Json.str cfg.model_id),
     ("input", Json.str prompt),
     ("parameters", mkParameters max_tokens type_of_request temperature),
     ("project_id", Json.str cfg.project_id)]

/-- Boolean model of Python `needle in hay` on strings. -/
def strContainsB (hay needle : String) : Bool :=
  (List.range (hay.toList.length + 1)).any
    (fun i => (hay.toList.drop i).take needle.toList.length == needle.toList)

/-- Lines 130-133 of `generate_text` applied to a parsed 2xx body,
together with the handlers that catch what the subscript chain
`result["results"][0]["generated_text"]` may raise: the text when
`results` is a non-empty list whose head is a dict with a string
`generated_text`; the unexpected-format message (line 133) when the
membership/length test fails; and an `Unexpected error during API call:`
message from the `except Exception` handler (line 154) when the chain
raises a `KeyError`/`TypeError` (for those branches the Python
exception text is abbreviated; no claim depends on its exact wording). -/
def extractGenerated (body : Json) : String :=
  match body with
  | Json.obj kvs =>
      (match dictLookup kvs "results" with
        | some (Json.arr (first :: _)) =>
            (match first with
              | Json.obj fk =>
                  (match dictLookup fk "generated_text" with
                    | some (Json.str s) => s
                    | some v => pyRepr v
                    | none => "Unexpected error during API call: \x27generated_text\x27")
              | _ => "Unexpected error during API call: TypeError")
        | some (Json.arr []) =>
            "Error: Unexpected response format from Watsonx API: " ++ pyRepr body
        | some _ => "Unexpected error during API call: TypeError"
        | none => "Error: Unexpected response format from Watsonx API: " ++ pyRepr body)
  | Json.arr xs =>
      if xs.any (fun v => match v with | Json.str s => s == "results" | _ => false) then
        "Unexpected error during API call: TypeError"
      else "Error: Unexpected response format from Watsonx API: " ++ pyRepr body
  | Json.str s =>
      if strContainsB s "results" then "Unexpected error during API call: TypeError"
      else "Error: Unexpected response format from Watsonx API: " ++ pyRepr body
  | _ => "Unexpected error during API call: TypeError"

/-- Embedding of `WatsonxDirectAPI.generate_text` (lines 78-155).  The
whole body sits in one `try`; an exception raised by
`_get_access_token` reaches the `except Exception` handler of line 154
and is returned as an `Unexpected error during API call:` string, so
the method returns a string in every case.  When the token step
succeeds, the payload is built and POSTed, and each transport failure is
caught by its own `except` clause and mapped to a descriptive string. -/
def generate_text (cfg : ClientConfig) (st : TokenState) (now : ℕ) (env : GenEnv)
    (prompt : String) (type_of_request : String) (max_tokens : ℕ) (temperature : ℚ) : GenResult :=
  let auth := get_access_token st now env.identity
  match auth.result with
  | Except.error e =>
      { output := "Unexpected error during API call: " ++ authExcMsg e,
        state := auth.state, identityRequests := auth.identityRequests, genRequests := [] }
  | Except.ok _ =>
      let payload := mkPayload cfg prompt type_of_request max_tokens temperature
      let out :=
        match env.gen with
        | GenOutcome.httpError detail text m =>
            (match detail with
              | some d => "HTTP error occurred: " ++ m ++ " - Details: " ++ pyRepr d
              | none => "HTTP error occurred: " ++ m ++ " - Response: " ++ text)
        | GenOutcome.connectionError m =>
            "Connection error: " ++ m ++ " - Check network or Watsonx URL: " ++ cfg.url
        | GenOutcome.timeoutError m =>
            "Timeout error: " ++ m ++ " - Watsonx API took too long to respond"
        | GenOutcome.badJson m =>
            "JSON decode error: " ++ m ++ " - Could not parse Watsonx API response"
        | GenOutcome.ok body => extractGenerated body
      { output := out, state := auth.state, identityRequests := auth.identityRequests,
        genRequests := [payload] }

/-! ### Prompt templates and the five operations -/

/-- The f-string of `generate_code` (lines 168-180). -/
def codePrompt (requirements language : String) : String :=
  "You are an expert software developer. Generate high-quality, production-ready " ++ language ++
  " code based on the following requirements.\n\nRequirements: " ++ requirements ++
  "\n\nPlease provide:\n1. Clean, well-documented code\n2. Proper error handling\n3. Best practices implementation\n4. Comments explaining key functionality\n\nGenerate only the code with appropriate comments. Do not include explanations outside the code.\n\nCode:"

/-- The f-string of `generate_tests` (lines 195-208). -/
def testsPrompt (code framework : String) : String :=
  "You are a QA engineer. Generate comprehensive test cases using " ++ framework ++
  " for the following code:\n\nCode:\n" ++ code ++
  "\n\nGenerate:\n1. Unit tests covering all functions\n2. Edge cases and error handling tests\n3. Integration tests if applicable\n4. Test data and fixtures\n\nProvide only the test code with appropriate imports and setup.\n\nTest Code:"

/-- The f-string of `fix_bugs` (lines 223-238). -/
def fixPrompt (code error_description : String) : String :=
  "You are a senior software engineer. Fix the bugs in the following code:\n\nCode with bugs:\n" ++ code ++
  "\n\nError/Issue description:\n" ++ error_description ++
  "\n\nProvide:\n1. Fixed code with corrections highlighted in comments\n2. Brief explanation of what was wrong\n3. Best practices to prevent similar issues\n\nFocus on providing the corrected code with clear comments indicating fixes.\n\nFixed Code:"

/-- The f-string of `summarize_code` (lines 252-266). -/
def summarizePrompt (code : String) : String :=
  "You are a technical documentation expert. Analyze and summarize the following code:\n\nCode:\n" ++ code ++
  "\n\nProvide a comprehensive analysis including:\n1. High-level summary of functionality\n2. Key components and their purposes\n3. Input/output description\n4. Dependencies and requirements\n5. Potential improvements or concerns\n\nFormat your response in clear sections with headings.\n\nAnalysis:"

/-- The f-string of `classify_requirements` (lines 280-303). -/
def classifyPrompt (requirements : String) : String :=
  "You are a business analyst. Classify the following requirements into structured categories:\n\nRequirements:\n" ++ requirements ++
  "\n\nAnalyze and classify into:\n1. Functional Requirements\n2. Non-functional Requirements\n3. Technical Requirements\n4. Business Requirements\n5. Priority Level (High/Medium/Low)\n6. Complexity Estimate (Simple/Medium/Complex)\n\nFormat the output as a valid JSON object with these exact keys:\n- \"Functional Requirements\": [list of items]\n- \"Non-functional Requirements\": [list of items]\n- \"Technical Requirements\": [list of items]\n- \"Business Requirements\": [list of items]\n- \"Priority Level\": \"High/Medium/Low\"\n- \"Complexity Estimate\": \"Simple/Medium/Complex\"\n\nRespond with only the JSON object, no additional text.\n\nJSON:"

/-- The f-string of `chat_assistant` (lines 336-349), parameterised by
the value of the local `context_section`. -/
def chatPromptText (context_section query : String) : String :=
  "You are a helpful AI assistant specialized in software development and programming.\n\n" ++ context_section ++
  "\n\nUser Query: " ++ query ++
  "\n\nProvide a helpful, accurate response that:\n1. Directly answers the question\n2. Provides code examples if relevant\n3. Explains technical concepts clearly\n4. Suggests best practices\n5. Keeps responses concise and actionable\n\nResponse:"

/-- `generate_code` (lines 157-182): render the template and call
`generate_text` with `type_of_request="code"`, default
`max_tokens=1000`, `temperature=0.7`. -/
def generate_code (cfg : ClientConfig) (st : TokenState) (now : ℕ) (env : GenEnv)
    (requirements language : String) : GenResult :=
  generate_text cfg st now env (codePrompt requirements language) "code" 1000 (7/10)

/-- `generate_tests` (lines 184-210). -/
def generate_tests (cfg : ClientConfig) (st : TokenState) (now : ℕ) (env : GenEnv)
    (code framework : String) : GenResult :=
  generate_text cfg st now env (testsPrompt code framework) "test" 1000 (7/10)

/-- `fix_bugs` (lines 212-240). -/
def fix_bugs (cfg : ClientConfig) (st : TokenState) (now : ℕ) (env : GenEnv)
    (code error_description : String) : GenResult :=
  generate_text cfg st now env (fixPrompt code error_description) "fix" 1000 (7/10)

/-- `summarize_code` (lines 242-268). -/
def summarize_code (cfg : ClientConfig) (st : TokenState) (now : ℕ) (env : GenEnv)
    (code : String) : GenResult :=
  generate_text cfg st now env (summarizePrompt code) "summarize" 1000 (7/10)

/-- `chat_assistant` of the direct module (lines 323-351): here
`context_section` is assigned before the prompt f-string is evaluated. -/
def chat_assistant (cfg : ClientConfig) (st : TokenState) (now : ℕ) (env : GenEnv)
    (query context : String) : GenResult :=
  let context_section := if context ≠ "" then "Context: " ++ context ++ "\n" else ""
  generate_text cfg st now env (chatPromptText context_section query) "chat" 1000 (7/10)

/-! ### The classification parser -/

/-- Index of the first occurrence of `c` in `cs`, if any. -/
def firstIdx (c : Char) : List Char → Option ℕ
  | [] => none
  | a :: as => if a = c then some 0 else (firstIdx c as).map (· + 1)

/-- Python `s.find(c)`: index of the first occurrence, `-1` if absent. -/
def pyFind (s : String) (c : Char) : ℤ :=
  match firstIdx c s.toList with
  | some i => (i : ℤ)
  | none => -1

/-- Python `s.rfind(c)`: index of the last occurrence, `-1` if absent
(computed as the first occurrence in the reversed string). -/
def pyRfind (s : String) (c : Char) : ℤ :=
  match firstIdx c s.toList.reverse with
  | some i => (s.toList.length : ℤ) - 1 - (i : ℤ)
  | none => -1

/-- Python `s[a:b]` for `0 ≤ a ≤ b` (the only shape the code uses). -/
def pySlice (s : String) (a b : ℕ) : String :=
  String.mk ((s.toList.drop a).take (b - a))

/-- Lines 307-321 of `classify_requirements`: take the substring from
the first `'\x7b'` to the last `'\x7d'` (inclusive) and `json.loads` it;
when no such substring exists, or the parse fails, return the
structured `error` / `raw_response` fallback dict instead of raising. -/
def classifyParse (response : String) : Json :=
  let json_start := pyFind response '\x7b'
  let json_end := pyRfind response '\x7d' + 1
  if 0 ≤ json_start ∧ json_start < json_end then
    match json_loads (pySlice response json_start.toNat json_end.toNat) with
    | some v => v
    | none =>
        Json.obj [("error", Json.str "Failed to parse classification"),
                  ("raw_response", Json.str response)]
  else
    Json.obj [("error", Json.str "No valid JSON found in response"),
              ("raw_response", Json.str response)]

/-- Result of one `classify_requirements` call: the returned dict (or
other JSON value `json.loads` produced) and the effects of the inner
`generate_text` call. -/
structure ClassifyResult where
  value : Json
  state : TokenState
  identityRequests : ℕ
  genRequests : List Json

/-- `classify_requirements` (lines 270-321): render the classification
template, call `generate_text` with `type_of_request="classify"` and
`temperature=0.1` (default `max_tokens=1000`), then extract the JSON
object from the response text. -/
def classify_requirements (cfg : ClientConfig) (st : TokenState) (now : ℕ) (env : GenEnv)
    (requirements : String) : ClassifyResult :=
  let r := generate_text cfg st now env (classifyPrompt requirements) "classify" 1000 (1/10)
  { value := classifyParse r.output, state := r.state,
    identityRequests := r.identityRequests, genRequests := r.genRequests }

/-! ### `chat_assistant` in `watsonx_integration.py` -/

/-- Python error for reading a local variable before its assignment:
`UnboundLocalError`, a subclass of `NameError`. -/
inductive PyNameError where
  | unboundLocal : String → PyNameError

/-- Embedding of `WatsonxDirectAPI.chat_assistant` from
`watsonx_integration.py` (lines 432-460).  In that copy of the class the
statement `context_section = ...` appears only AFTER the prompt
f-string, but the f-string reads the local `context_section`; because
the assignment anywhere in the body makes the name local, the read
raises `UnboundLocalError` (a `NameError`).  Locals are modelled as
`Option` values that are `none` until their assignment statement has
run; statements are embedded in source order. -/
def integration_chat_assistant (cfg : ClientConfig) (st : TokenState) (now : ℕ) (env : GenEnv)
    (query context : String) : Except PyNameError GenResult :=
  -- locals at the start of the body: `query`, `context` bound; `context_section` not yet assigned
  let context_section : Option String := none
  -- `prompt = f"""...{context_section}...{query}..."""` (lines 443-457) reads `context_section`
  match context_section with
  | none => Except.error (PyNameError.unboundLocal "context_section")
  | some cs =>
      -- line 459 (never reached): `context_section = f"Context: {context}\n" if context else ""`
      let _ := if context ≠ "" then "Context: " ++ context ++ "\n" else ""
      Except.ok (generate_text cfg st now env (chatPromptText cs query) "chat" 1000 (7/10))

/-! ### Shared helper definitions and lemmas for the theorems -/

/-- `needle` occurs contiguously inside `hay`. -/
def strContains (hay needle : String) : Prop :=
  ∃ l r, hay.data = l ++ needle.data ++ r

lemma strContains_refl (s : String) : strContains s s :=
  ⟨[], [], by simp⟩

lemma strContains_appendLeft {a n : String} (h : strContains a n) (b : String) :
    strContains (a ++ b) n := by
  obtain ⟨l, r, hl⟩ := h
  exact ⟨l, r ++ b.data, by simp [String.data_append, hl]⟩

lemma strContains_appendRight (a : String) {b n : String} (h : strContains b n) :
    strContains (a ++ b) n := by
  obtain ⟨l, r, hl⟩ := h
  exact ⟨a.data ++ l, r, by simp [String.data_append, hl]⟩

/-- The identity-request count of a `generate_text` call is exactly the
count of the token step inside it. -/
lemma generate_text_identityRequests (cfg : ClientConfig) (st : TokenState) (now : ℕ)
    (env : GenEnv) (p ty : String) (mt : ℕ) (t : ℚ) :
    (generate_text cfg st now env p ty mt t).identityRequests =
      (get_access_token st now env.identity).identityRequests := by
  unfold generate_text
  cases h : (get_access_token st now env.identity).result <;> simp [h]

/-- The token cache after a `generate_text` call is the cache left by
the token step inside it. -/
lemma generate_text_state (cfg : ClientConfig) (st : TokenState) (now : ℕ)
    (env : GenEnv) (p ty : String) (mt : ℕ) (t : ℚ) :
    (generate_text cfg st now env p ty mt t).state =
      (get_access_token st now env.identity).state := by
  unfold generate_text
  cases h : (get_access_token st now env.identity).result <;> simp [h]

/-- One `_get_access_token` call issues at most one identity POST. -/
lemma get_access_token_le_one (st : TokenState) (now : ℕ) (env : IdentityOutcome) :
    (get_access_token st now env).identityRequests ≤ 1 := by
  unfold get_access_token
  by_cases h : tokenValid st now = true
  · simp [h]
  · simp only [Bool.not_eq_true] at h
    cases env with
    | transportError m => simp [h]
    | badJson m => simp [h]
    | ok body =>
        simp only [h, Bool.false_eq_true, if_false]
        split <;> simp

/-- With a valid cache the token step issues no identity POST. -/
lemma get_access_token_cached (st : TokenState) (now : ℕ) (env : IdentityOutcome)
    (h : tokenValid st now = true) :
    (get_access_token st now env).identityRequests = 0 := by
  simp [get_access_token, h]

/-! ### Claims C1 and C2: token reuse and token refresh -/

/-- C1.  Token reuse: in every client state whose cached `access_token`
is a non-empty string and whose expiry lies strictly in the future,
`_get_access_token` returns the cached token unchanged, issues no
identity-endpoint request, and leaves the cache unmodified; hence two
`generate_text` calls within the expiry window issue at most one
identity-endpoint request in total (the second call issues none). -/
theorem c1_token_reuse :
    (∀ (st : TokenState) (now : ℕ) (env : IdentityOutcome) (tok : String),
        st.access_token = some (Json.str tok) → tok ≠ "" → now < st.token_expiry →
        get_access_token st now env =
          { result := Except.ok (Json.str tok), state := st, identityRequests := 0 })
    ∧ (∀ (cfg : ClientConfig) (st : TokenState) (now1 now2 : ℕ) (env1 env2 : GenEnv)
        (p1 ty1 p2 ty2 : String) (mt1 mt2 : ℕ) (t1 t2 : ℚ),
        tokenValid (generate_text cfg st now1 env1 p1 ty1 mt1 t1).state now2 = true →
        (generate_text cfg st now1 env1 p1 ty1 mt1 t1).identityRequests +
          (generate_text cfg (generate_text cfg st now1 env1 p1 ty1 mt1 t1).state
            now2 env2 p2 ty2 mt2 t2).identityRequests ≤ 1) := by
  constructor
  · intro st now env tok h1 h2 h3
    have hv : tokenValid st now = true := by
      simp [tokenValid, h1, jsonTruthy, h2, h3]
    simp [get_access_token, hv, h1]
  · intro cfg st now1 now2 env1 env2 p1 ty1 p2 ty2 mt1 mt2 t1 t2 h
    have e1 := generate_text_identityRequests cfg st now1 env1 p1 ty1 mt1 t1
    have b1 := get_access_token_le_one st now1 env1.identity
    have e2 := generate_text_identityRequests cfg
      (generate_text cfg st now1 env1 p1 ty1 mt1 t1).state now2 env2 p2 ty2 mt2 t2
    have z2 := get_access_token_cached
      (generate_text cfg st now1 env1 p1 ty1 mt1 t1).state now2 env2.identity h
    omega

/-- Witness for C1 at concrete inputs: a cached non-empty token inside
its window is served twice with no identity request. -/
theorem c1_token_reuse_witness :
    get_access_token ⟨some (Json.str "tok0"), 100⟩ 5 (IdentityOutcome.transportError "down") =
      { result := Except.ok (Json.str "tok0"),
        state := ⟨some (Json.str "tok0"), 100⟩, identityRequests := 0 }
    ∧ (generate_text ⟨"k", "proj", "https://u", "model"⟩ ⟨some (Json.str "tok0"), 100⟩ 5
          ⟨IdentityOutcome.transportError "down", GenOutcome.ok Json.null⟩
          "hi" "general" 1000 (7/10)).identityRequests +
        (generate_text ⟨"k", "proj", "https://u", "model"⟩
          (generate_text ⟨"k", "proj", "https://u", "model"⟩ ⟨some (Json.str "tok0"), 100⟩ 5
            ⟨IdentityOutcome.transportError "down", GenOutcome.ok Json.null⟩
            "hi" "general" 1000 (7/10)).state 6
          ⟨IdentityOutcome.transportError "down", GenOutcome.ok Json.null⟩
          "hi again" "general" 1000 (7/10)).identityRequests ≤ 1 :=
  ⟨c1_token_reuse.1 ⟨some (Json.str "tok0"), 100⟩ 5 (IdentityOutcome.transportError "down")
      "tok0" rfl (by decide) (by decide),
   c1_token_reuse.2 ⟨"k", "proj", "https://u", "model"⟩ ⟨some (Json.str "tok0"), 100⟩ 5 6
      ⟨IdentityOutcome.transportError "down", GenOutcome.ok Json.null⟩
      ⟨IdentityOutcome.transportError "down", GenOutcome.ok Json.null⟩
      "hi" "general" "hi again" "general" 1000 1000 (7/10) (7/10) (by decide)⟩

/-- C2.  Token refresh: whenever the cached-token guard fails, a
`_get_access_token` call issues exactly one identity-endpoint POST, and
when that POST yields a JSON body, the cache is replaced wholesale: the
new `access_token` is exactly the `access_token` field of the body and the
new `token_expiry` is `now + 3000` (50 minutes), for every body — in
particular independently of any lifetime field the body carries. -/
theorem c2_token_refresh (st : TokenState) (now : ℕ) (env : IdentityOutcome)
    (h : tokenValid st now = false) :
    (get_access_token st now env).identityRequests = 1
    ∧ ∀ body, env = IdentityOutcome.ok body →
        (get_access_token st now env).state =
          { access_token := dictGet body "access_token", token_expiry := now + 3000 } := by
  constructor
  · unfold get_access_token
    simp only [h, Bool.false_eq_true, if_false]
    cases env with
    | transportError m => rfl
    | badJson m => rfl
    | ok body =>
        simp only []
        split <;> rfl
  · intro body hb
    subst hb
    unfold get_access_token
    simp only [h, Bool.false_eq_true, if_false]
    split <;> rfl

/-- Witness for C2 at concrete inputs: from an expired state, a refresh
against a body that also carries `expires_in: 3600` stores the token of that body
token and sets expiry to `now + 3000`, ignoring `expires_in`. -/
theorem c2_token_refresh_witness :
    tokenValid ⟨some (Json.str "old"), 10⟩ 10 = false
    ∧ (get_access_token ⟨some (Json.str "old"), 10⟩ 10
        (IdentityOutcome.ok (Json.obj
          [("access_token", Json.str "fresh"), ("expires_in", Json.num 3600)]))).identityRequests = 1
    ∧ (get_access_token ⟨some (Json.str "old"), 10⟩ 10
        (IdentityOutcome.ok (Json.obj
          [("access_token", Json.str "fresh"), ("expires_in", Json.num 3600)]))).state =
        ⟨some (Json.str "fresh"), 3010⟩ :=
  ⟨rfl,
   (c2_token_refresh ⟨some (Json.str "old"), 10⟩ 10
      (IdentityOutcome.ok (Json.obj
        [("access_token", Json.str "fresh"), ("expires_in", Json.num 3600)])) rfl).1,
   (c2_token_refresh ⟨some (Json.str "old"), 10⟩ 10
      (IdentityOutcome.ok (Json.obj
        [("access_token", Json.str "fresh"), ("expires_in", Json.num 3600)])) rfl).2 _ rfl⟩

/-! ### Claim C10: the token-manager invariant -/

/-- C10.  `_get_access_token` never returns `None` or a falsy (e.g.
empty) token: every returned token is truthy and is either the cached
value stored by an earlier refresh (served with no identity request) or
the `access_token` field of the identity response of this call.  Moreover,
when a refresh yields a JSON body with no `access_token` field, the
method stores `None` as the cached token, yet advances `token_expiry`
to `now + 3000` before raising `ValueError`; and a state whose cached
token is `None` can never take the cached branch on a later call. -/
theorem c10_token_invariant (st : TokenState) (now : ℕ) (env : IdentityOutcome) :
    (∀ tok, (get_access_token st now env).result = Except.ok tok →
        jsonTruthy tok = true ∧
        (((get_access_token st now env).identityRequests = 0 ∧ st.access_token = some tok)
         ∨ (∃ body, env = IdentityOutcome.ok body ∧ dictGet body "access_token" = some tok)))
    ∧ (tokenValid st now = false →
        ∀ body, env = IdentityOutcome.ok body → dictGet body "access_token" = none →
          (get_access_token st now env).result = Except.error AuthException.noToken ∧
          (get_access_token st now env).state = ⟨none, now + 3000⟩)
    ∧ (∀ (st1 : TokenState) (now1 : ℕ) (env1 : IdentityOutcome),
        st1.access_token = none → (get_access_token st1 now1 env1).identityRequests = 1) := by
  refine ⟨?_, ?_, ?_⟩
  · intro tok h
    by_cases hv : tokenValid st now = true
    · have hj : ∃ j, st.access_token = some j ∧ jsonTruthy j = true := by
        unfold tokenValid at hv
        rw [Bool.and_eq_true] at hv
        obtain ⟨hv1, _⟩ := hv
        cases hst : st.access_token with
        | none => rw [hst] at hv1; simp at hv1
        | some j => rw [hst] at hv1; simp at hv1; exact ⟨j, rfl, hv1⟩
      obtain ⟨j, hst, hjt⟩ := hj
      simp only [get_access_token, hv, if_true] at h ⊢
      rw [hst] at h
      simp only [Option.getD_some, Except.ok.injEq] at h
      subst h
      exact ⟨hjt, Or.inl ⟨by trivial, hst⟩⟩
    · have hvf : tokenValid st now = false := by simpa using hv
      cases env with
      | transportError m =>
          simp [get_access_token, hvf] at h
      | badJson m =>
          simp [get_access_token, hvf] at h
      | ok body =>
          by_cases ht : (dictGet body "access_token").elim false jsonTruthy = true
          · simp only [get_access_token, hvf, Bool.false_eq_true, if_false, ht, if_true] at h ⊢
            cases hdg : dictGet body "access_token" with
            | none => rw [hdg] at ht; simp at ht
            | some j =>
                rw [hdg] at ht h
                simp only [Option.elim_some] at ht
                simp only [Option.getD_some, Except.ok.injEq] at h
                subst h
                exact ⟨ht, Or.inr ⟨body, rfl, hdg⟩⟩
          · have htf : (dictGet body "access_token").elim false jsonTruthy = false := by
              simpa using ht
            simp [get_access_token, hvf, htf] at h
  · intro hvf body hb hdg
    subst hb
    have htf : (dictGet body "access_token").elim false jsonTruthy = false := by
      simp [hdg]
    constructor
    · simp [get_access_token, hvf, htf]
    · simp only [get_access_token, hvf, Bool.false_eq_true, if_false, htf]
      rw [hdg]
  · intro st1 now1 env1 hst1
    have hvf : tokenValid st1 now1 = false := by
      unfold tokenValid
      rw [hst1]
      rfl
    cases env1 with
    | transportError m => simp [get_access_token, hvf]
    | badJson m => simp [get_access_token, hvf]
    | ok body =>
        simp only [get_access_token, hvf, Bool.false_eq_true, if_false]
        split <;> rfl

/-- Witness for C10 at concrete inputs: a cached truthy token is served
as-is; a refresh against a body with no `access_token` field raises
`ValueError` with `None` stored and the expiry advanced to `now + 3000`;
and a `None`-token state always takes the refresh branch. -/
theorem c10_token_invariant_witness :
    (jsonTruthy (Json.str "t1") = true ∧
      (((get_access_token ⟨some (Json.str "t1"), 9⟩ 5
            (IdentityOutcome.transportError "x")).identityRequests = 0
         ∧ (⟨some (Json.str "t1"), 9⟩ : TokenState).access_token = some (Json.str "t1"))
       ∨ (∃ body, IdentityOutcome.transportError "x" = IdentityOutcome.ok body
            ∧ dictGet body "access_token" = some (Json.str "t1"))))
    ∧ ((get_access_token ⟨none, 0⟩ 4
          (IdentityOutcome.ok (Json.obj [("scope", Json.str "ibm")]))).result
        = Except.error AuthException.noToken
      ∧ (get_access_token ⟨none, 0⟩ 4
          (IdentityOutcome.ok (Json.obj [("scope", Json.str "ibm")]))).state = ⟨none, 3004⟩)
    ∧ (get_access_token ⟨none, 3004⟩ 5 (IdentityOutcome.badJson "oops")).identityRequests = 1 :=
  ⟨(c10_token_invariant ⟨some (Json.str "t1"), 9⟩ 5 (IdentityOutcome.transportError "x")).1
      (Json.str "t1") rfl,
   (c10_token_invariant ⟨none, 0⟩ 4
      (IdentityOutcome.ok (Json.obj [("scope", Json.str "ibm")]))).2.1 rfl _ rfl rfl,
   (c10_token_invariant ⟨none, 0⟩ 4 (IdentityOutcome.badJson "oops")).2.2 ⟨none, 3004⟩ 5
      (IdentityOutcome.badJson "oops") rfl⟩

/-! ### Claim C6: when `_get_access_token` raises -/

/-- C6 as stated: outside the cached-branch guard, `_get_access_token`
raises in EXACTLY two situations — a transport/HTTP-level failure of the
identity request, or an identity response whose `access_token` field is
missing or the empty string. -/
def c6_claim_statement : Prop :=
  ∀ (st : TokenState) (now : ℕ) (env : IdentityOutcome),
    tokenValid st now = false →
    ((∃ e, (get_access_token st now env).result = Except.error e) ↔
      ((∃ m, env = IdentityOutcome.transportError m)
       ∨ (∃ body, env = IdentityOutcome.ok body
            ∧ (dictGet body "access_token" = none
               ∨ dictGet body "access_token" = some (Json.str "")))))

/-- Counterexample to C6 as stated: a 2xx identity response whose body
is not valid JSON makes `response.json()` raise
`requests.exceptions.JSONDecodeError` — under the pinned
`requests>=2.31.0` a `RequestException` subclass, so the first handler
(line 71) catches it and `_get_access_token` raises
`Exception(f"Authentication failed: {e}")` (the
`except json.JSONDecodeError` clause of line 74 is dead code).  That is
a third raising situation: the HTTP exchange itself succeeded, so it is
neither a transport/HTTP-level failure of the request nor a
missing/empty `access_token` field. -/
theorem c6_counterexample : ¬ c6_claim_statement := by
  intro hc
  have h := (hc ⟨none, 0⟩ 0 (IdentityOutcome.badJson "not json") rfl).mp
    ⟨AuthException.authFailed "not json", rfl⟩
  rcases h with ⟨m, hm⟩ | ⟨body, hb, _⟩
  · exact IdentityOutcome.noConfusion hm
  · exact IdentityOutcome.noConfusion hb

/-- C6 amended: outside the cached-branch guard, `_get_access_token`
raises (an `Except.error`, never a normal string return) in exactly
three situations: a transport/HTTP-level failure of the identity
request; a 2xx identity response whose body is not valid JSON — which,
because `requests.exceptions.JSONDecodeError` is a `RequestException`
under the pinned `requests>=2.31.0`, is caught by the first handler and
raised as `Exception(f"Authentication failed: {e}")`, the
`except json.JSONDecodeError` clause being dead code — and an identity
response whose `access_token` field is missing or falsy (e.g. the empty
string). -/
theorem c6_auth_error_cases (st : TokenState) (now : ℕ) (env : IdentityOutcome)
    (h : tokenValid st now = false) :
    ((∃ e, (get_access_token st now env).result = Except.error e) ↔
      ((∃ m, env = IdentityOutcome.transportError m)
       ∨ (∃ m, env = IdentityOutcome.badJson m)
       ∨ (∃ body, env = IdentityOutcome.ok body
            ∧ (dictGet body "access_token").elim false jsonTruthy = false)))
    ∧ (∀ m, env = IdentityOutcome.badJson m →
        (get_access_token st now env).result =
          Except.error (AuthException.authFailed m)) := by
  constructor
  · cases env with
    | transportError m =>
        constructor
        · intro _; exact Or.inl ⟨m, rfl⟩
        · intro _; exact ⟨AuthException.authFailed m, by simp [get_access_token, h]⟩
    | badJson m =>
        constructor
        · intro _; exact Or.inr (Or.inl ⟨m, rfl⟩)
        · intro _; exact ⟨AuthException.authFailed m, by simp [get_access_token, h]⟩
    | ok body =>
        by_cases ht : (dictGet body "access_token").elim false jsonTruthy = true
        · constructor
          · intro ⟨e, he⟩
            simp only [get_access_token, h, Bool.false_eq_true, if_false, ht, if_true] at he
            exact absurd he (by simp)
          · intro hr
            rcases hr with ⟨m, hm⟩ | ⟨m, hm⟩ | ⟨body1, hb, hf⟩
            · exact IdentityOutcome.noConfusion hm
            · exact IdentityOutcome.noConfusion hm
            · rw [IdentityOutcome.ok.injEq] at hb
              rw [← hb] at hf
              rw [hf] at ht
              exact absurd ht (by simp)
        · have htf : (dictGet body "access_token").elim false jsonTruthy = false := by
            simpa using ht
          constructor
          · intro _; exact Or.inr (Or.inr ⟨body, rfl, htf⟩)
          · intro _
            exact ⟨AuthException.noToken, by simp [get_access_token, h, htf]⟩
  · intro m hm
    subst hm
    simp [get_access_token, h]

/-- Witness for the amended C6 at concrete inputs: each of the three
situations raises — the non-JSON body as
`Exception("Authentication failed: ...")` — and a refresh that yields a
truthy token does not raise. -/
theorem c6_auth_error_cases_witness :
    (∃ e, (get_access_token ⟨none, 0⟩ 0 (IdentityOutcome.transportError "down")).result
        = Except.error e)
    ∧ (get_access_token ⟨none, 0⟩ 0 (IdentityOutcome.badJson "Expecting value")).result
        = Except.error (AuthException.authFailed "Expecting value")
    ∧ (∃ e, (get_access_token ⟨none, 0⟩ 0
          (IdentityOutcome.ok (Json.obj [("access_token", Json.str "")]))).result
        = Except.error e)
    ∧ ¬ (∃ e, (get_access_token ⟨none, 0⟩ 0
          (IdentityOutcome.ok (Json.obj [("access_token", Json.str "live")]))).result
        = Except.error e) :=
  ⟨((c6_auth_error_cases ⟨none, 0⟩ 0 (IdentityOutcome.transportError "down") rfl).1).mpr
      (Or.inl ⟨"down", rfl⟩),
   (c6_auth_error_cases ⟨none, 0⟩ 0 (IdentityOutcome.badJson "Expecting value") rfl).2
      "Expecting value" rfl,
   ((c6_auth_error_cases ⟨none, 0⟩ 0
      (IdentityOutcome.ok (Json.obj [("access_token", Json.str "")])) rfl).1).mpr
      (Or.inr (Or.inr ⟨Json.obj [("access_token", Json.str "")], rfl, rfl⟩)),
   fun hx =>
     by
       have := ((c6_auth_error_cases ⟨none, 0⟩ 0
         (IdentityOutcome.ok (Json.obj [("access_token", Json.str "live")])) rfl).1).mp hx
       rcases this with ⟨m, hm⟩ | ⟨m, hm⟩ | ⟨body1, hb, hf⟩
       · exact IdentityOutcome.noConfusion hm
       · exact IdentityOutcome.noConfusion hm
       · rw [IdentityOutcome.ok.injEq] at hb
         rw [← hb] at hf
         exact absurd hf (by simp [dictGet, dictLookup, jsonTruthy])⟩

/-! ### Claim C3: transport-failure mapping in `generate_text` -/

lemma strContains_http_prefix : strContains "HTTP error occurred: " "HTTP error" :=
  ⟨[], " occurred: ".data, by decide⟩

/-- C3.  When the token step succeeds and the generation POST fails,
`generate_text` returns (never raises — the embedding is total exactly
because every `except` clause returns) a descriptive string: for an HTTP
status error, a string containing `"HTTP error"` and the detail
extracted from the response body (the parsed body when it is JSON, the
raw text otherwise); connection errors and timeouts are caught by their
own clauses and returned as their descriptive strings. -/
theorem c3_transport_failure_mapping (cfg : ClientConfig) (st : TokenState) (now : ℕ)
    (envId : IdentityOutcome) (prompt ty : String) (mt : ℕ) (temp : ℚ) (tok : Json)
    (hauth : (get_access_token st now envId).result = Except.ok tok) :
    (∀ (d : Json) (text m : String),
        (generate_text cfg st now ⟨envId, GenOutcome.httpError (some d) text m⟩
            prompt ty mt temp).output
          = "HTTP error occurred: " ++ m ++ " - Details: " ++ pyRepr d
        ∧ strContains (generate_text cfg st now ⟨envId, GenOutcome.httpError (some d) text m⟩
            prompt ty mt temp).output "HTTP error"
        ∧ strContains (generate_text cfg st now ⟨envId, GenOutcome.httpError (some d) text m⟩
            prompt ty mt temp).output (pyRepr d))
    ∧ (∀ (text m : String),
        (generate_text cfg st now ⟨envId, GenOutcome.httpError none text m⟩
            prompt ty mt temp).output
          = "HTTP error occurred: " ++ m ++ " - Response: " ++ text
        ∧ strContains (generate_text cfg st now ⟨envId, GenOutcome.httpError none text m⟩
            prompt ty mt temp).output "HTTP error"
        ∧ strContains (generate_text cfg st now ⟨envId, GenOutcome.httpError none text m⟩
            prompt ty mt temp).output text)
    ∧ (∀ m : String,
        (generate_text cfg st now ⟨envId, GenOutcome.connectionError m⟩
            prompt ty mt temp).output
          = "Connection error: " ++ m ++ " - Check network or Watsonx URL: " ++ cfg.url)
    ∧ (∀ m : String,
        (generate_text cfg st now ⟨envId, GenOutcome.timeoutError m⟩ prompt ty mt temp).output
          = "Timeout error: " ++ m ++ " - Watsonx API took too long to respond") := by
  refine ⟨?_, ?_, ?_, ?_⟩
  · intro d text m
    have hout : (generate_text cfg st now ⟨envId, GenOutcome.httpError (some d) text m⟩
        prompt ty mt temp).output
        = "HTTP error occurred: " ++ m ++ " - Details: " ++ pyRepr d := by
      simp [generate_text, hauth]
    refine ⟨hout, ?_, ?_⟩
    · rw [hout]
      exact strContains_appendLeft
        (strContains_appendLeft (strContains_appendLeft strContains_http_prefix m) _) _
    · rw [hout]
      exact strContains_appendRight _ (strContains_refl (pyRepr d))
  · intro text m
    have hout : (generate_text cfg st now ⟨envId, GenOutcome.httpError none text m⟩
        prompt ty mt temp).output
        = "HTTP error occurred: " ++ m ++ " - Response: " ++ text := by
      simp [generate_text, hauth]
    refine ⟨hout, ?_, ?_⟩
    · rw [hout]
      exact strContains_appendLeft
        (strContains_appendLeft (strContains_appendLeft strContains_http_prefix m) _) _
    · rw [hout]
      exact strContains_appendRight _ (strContains_refl text)
  · intro m
    simp [generate_text, hauth]
  · intro m
    simp [generate_text, hauth]

/-- Witness for C3 at concrete inputs: a simulated 500 with a JSON error
body, a bare 500 with a text body, a connection error and a timeout. -/
theorem c3_transport_failure_mapping_witness :
    ((generate_text ⟨"k", "proj", "https://u", "mdl"⟩ ⟨some (Json.str "t"), 10⟩ 2
        ⟨IdentityOutcome.transportError "unused",
         GenOutcome.httpError (some (Json.obj [("error", Json.str "boom")])) "raw"
           "500 Server Error"⟩ "p" "general" 1000 (7/10)).output
      = "HTTP error occurred: " ++ "500 Server Error" ++ " - Details: "
          ++ pyRepr (Json.obj [("error", Json.str "boom")])
      ∧ strContains (generate_text ⟨"k", "proj", "https://u", "mdl"⟩ ⟨some (Json.str "t"), 10⟩ 2
          ⟨IdentityOutcome.transportError "unused",
           GenOutcome.httpError (some (Json.obj [("error", Json.str "boom")])) "raw"
             "500 Server Error"⟩ "p" "general" 1000 (7/10)).output "HTTP error"
      ∧ strContains (generate_text ⟨"k", "proj", "https://u", "mdl"⟩ ⟨some (Json.str "t"), 10⟩ 2
          ⟨IdentityOutcome.transportError "unused",
           GenOutcome.httpError (some (Json.obj [("error", Json.str "boom")])) "raw"
             "500 Server Error"⟩ "p" "general" 1000 (7/10)).output
          (pyRepr (Json.obj [("error", Json.str "boom")])))
    ∧ (generate_text ⟨"k", "proj", "https://u", "mdl"⟩ ⟨some (Json.str "t"), 10⟩ 2
        ⟨IdentityOutcome.transportError "unused", GenOutcome.connectionError "refused"⟩
        "p" "general" 1000 (7/10)).output
      = "Connection error: " ++ "refused" ++ " - Check network or Watsonx URL: " ++ "https://u"
    ∧ (generate_text ⟨"k", "proj", "https://u", "mdl"⟩ ⟨some (Json.str "t"), 10⟩ 2
        ⟨IdentityOutcome.transportError "unused", GenOutcome.timeoutError "60s"⟩
        "p" "general" 1000 (7/10)).output
      = "Timeout error: " ++ "60s" ++ " - Watsonx API took too long to respond" :=
  ⟨(c3_transport_failure_mapping ⟨"k", "proj", "https://u", "mdl"⟩ ⟨some (Json.str "t"), 10⟩ 2
      (IdentityOutcome.transportError "unused") "p" "general" 1000 (7/10)
      (Json.str "t") rfl).1 (Json.obj [("error", Json.str "boom")]) "raw" "500 Server Error",
   (c3_transport_failure_mapping ⟨"k", "proj", "https://u", "mdl"⟩ ⟨some (Json.str "t"), 10⟩ 2
      (IdentityOutcome.transportError "unused") "p" "general" 1000 (7/10)
      (Json.str "t") rfl).2.2.1 "refused",
   (c3_transport_failure_mapping ⟨"k", "proj", "https://u", "mdl"⟩ ⟨some (Json.str "t"), 10⟩ 2
      (IdentityOutcome.transportError "unused") "p" "general" 1000 (7/10)
      (Json.str "t") rfl).2.2.2 "60s"⟩

/-! ### Claim C7: `chat_assistant` of the integration module -/

/-- C7.  In the `watsonx_integration.py` copy of the class,
`chat_assistant` evaluates its prompt f-string — which reads the local
`context_section` — before the assignment to that local, so every call,
for every query and context, raises `UnboundLocalError` (a `NameError`)
before any HTTP request is made, instead of returning a response
string. -/
theorem c7_integration_chat_unbound_local (cfg : ClientConfig) (st : TokenState) (now : ℕ)
    (env : GenEnv) (query context : String) :
    integration_chat_assistant cfg st now env query context =
      Except.error (PyNameError.unboundLocal "context_section") := rfl

/-! ### Claim C8: temperature dispatch -/

/-- C8.  The decoding parameters of every generation request carry
temperature `0.1` when `type_of_request = "classify"` and the
caller-supplied temperature otherwise; when the token step succeeds the
request actually POSTed is exactly the payload built from those
parameters; and `classify_requirements` always calls with
`type_of_request = "classify"` (and the moderate `0.7` is what the other
operations pass), so every classification request carries `0.1`. -/
theorem c8_temperature_dispatch :
    (∀ (mt : ℕ) (ty : String) (temp : ℚ),
        dictGet (mkParameters mt ty temp) "temperature" =
          some (Json.num (if ty = "classify" then 1/10 else temp)))
    ∧ (∀ (cfg : ClientConfig) (st : TokenState) (now : ℕ) (env : GenEnv)
        (p ty : String) (mt : ℕ) (temp : ℚ) (tok : Json),
        (get_access_token st now env.identity).result = Except.ok tok →
        (generate_text cfg st now env p ty mt temp).genRequests = [mkPayload cfg p ty mt temp])
    ∧ (∀ (cfg : ClientConfig) (st : TokenState) (now : ℕ) (env : GenEnv)
        (reqs : String) (tok : Json),
        (get_access_token st now env.identity).result = Except.ok tok →
        (classify_requirements cfg st now env reqs).genRequests =
          [mkPayload cfg (classifyPrompt reqs) "classify" 1000 (1/10)])
    ∧ dictGet (mkParameters 1000 "classify" (1/10)) "temperature" = some (Json.num (1/10)) := by
  refine ⟨?_, ?_, ?_, ?_⟩
  · intro mt ty temp
    rfl
  · intro cfg st now env p ty mt temp tok hauth
    simp [generate_text, hauth]
  · intro cfg st now env reqs tok hauth
    simp [classify_requirements, generate_text, hauth]
  · rfl

/-- Witness for C8 at concrete inputs: a classify-typed call carries
`0.1` even when the caller passes `0.7`, a chat-typed call carries the
moderate `0.7` of the caller, and a concrete `classify_requirements` call POSTs the
classify payload. -/
theorem c8_temperature_dispatch_witness :
    dictGet (mkParameters 1000 "classify" (7/10)) "temperature" = some (Json.num (1/10))
    ∧ dictGet (mkParameters 1000 "chat" (7/10)) "temperature" = some (Json.num (7/10))
    ∧ (classify_requirements ⟨"k", "proj", "https://u", "mdl"⟩ ⟨some (Json.str "t"), 10⟩ 2
        ⟨IdentityOutcome.transportError "unused", GenOutcome.ok Json.null⟩ "req text").genRequests
      = [mkPayload ⟨"k", "proj", "https://u", "mdl"⟩ (classifyPrompt "req text") "classify"
          1000 (1/10)] := by
  refine ⟨?_, ?_, ?_⟩
  · have h := c8_temperature_dispatch.1 1000 "classify" (7/10)
    simpa using h
  · have h := c8_temperature_dispatch.1 1000 "chat" (7/10)
    simpa using h
  · exact c8_temperature_dispatch.2.2.1 ⟨"k", "proj", "https://u", "mdl"⟩
      ⟨some (Json.str "t"), 10⟩ 2 ⟨IdentityOutcome.transportError "unused", GenOutcome.ok Json.null⟩
      "req text" (Json.str "t") rfl

/-! ### Claim C9: end-to-end request construction for `generate_code` -/

/-- C9.  For every requirements string and language, when the token step
succeeds, the request body POSTed by `generate_code` is exactly the JSON
object with keys `model_id`, `input`, `parameters`, `project_id`, where
`input` is the rendered code template — which contains the requirements
text as a substring — `model_id` is the configured model id and
`project_id` the configured project id. -/
theorem c9_end_to_end_request (cfg : ClientConfig) (st : TokenState) (now : ℕ) (env : GenEnv)
    (reqs lang : String) (tok : Json)
    (hauth : (get_access_token st now env.identity).result = Except.ok tok) :
    (generate_code cfg st now env reqs lang).genRequests =
      [Json.obj [("model_id", Json.str cfg.model_id),
                 ("input", Json.str (codePrompt reqs lang)),
                 ("parameters", mkParameters 1000 "code" (7/10)),
                 ("project_id", Json.str cfg.project_id)]]
    ∧ strContains (codePrompt reqs lang) reqs := by
  constructor
  · simp [generate_code, generate_text, hauth, mkPayload]
  · exact strContains_appendLeft (strContains_appendRight _ (strContains_refl reqs)) _

/-- Witness for C9 at the concrete scenario of the spec: requirements
"Create a function to add two numbers" in language "python". -/
theorem c9_end_to_end_request_witness :
    (generate_code ⟨"k", "proj-42", "https://eu-de.ml.cloud.ibm.com", "ibm/granite-3-3-8b-instruct"⟩
        ⟨some (Json.str "t"), 10⟩ 2
        ⟨IdentityOutcome.transportError "unused", GenOutcome.ok Json.null⟩
        "Create a function to add two numbers" "python").genRequests =
      [Json.obj [("model_id", Json.str "ibm/granite-3-3-8b-instruct"),
                 ("input", Json.str (codePrompt "Create a function to add two numbers" "python")),
                 ("parameters", mkParameters 1000 "code" (7/10)),
                 ("project_id", Json.str "proj-42")]]
    ∧ strContains (codePrompt "Create a function to add two numbers" "python")
        "Create a function to add two numbers" :=
  c9_end_to_end_request
    ⟨"k", "proj-42", "https://eu-de.ml.cloud.ibm.com", "ibm/granite-3-3-8b-instruct"⟩
    ⟨some (Json.str "t"), 10⟩ 2
    ⟨IdentityOutcome.transportError "unused", GenOutcome.ok Json.null⟩
    "Create a function to add two numbers" "python" (Json.str "t") rfl

/-! ### Claims C4 and C5: the classification parser -/

lemma firstIdx_eq_none_of_not_mem (c : Char) (l : List Char) (h : c ∉ l) :
    firstIdx c l = none := by
  induction l with
  | nil => rfl
  | cons a as ih =>
      have hac : ¬ a = c := fun e => h (e ▸ List.mem_cons_self a as)
      have h2 : c ∉ as := fun hc => h (List.mem_cons_of_mem a hc)
      simp [firstIdx, hac, ih h2]

lemma firstIdx_append_of_not_mem (c : Char) (l1 l2 : List Char) (h : c ∉ l1) :
    firstIdx c (l1 ++ l2) = (firstIdx c l2).map (· + l1.length) := by
  induction l1 with
  | nil =>
      simp only [List.nil_append, List.length_nil]
      cases firstIdx c l2 <;> simp
  | cons a as ih =>
      have hac : ¬ a = c := fun e => h (e ▸ List.mem_cons_self a as)
      have h2 : c ∉ as := fun hc => h (List.mem_cons_of_mem a hc)
      have hstep : firstIdx c ((a :: as) ++ l2) = (firstIdx c (as ++ l2)).map (· + 1) := by
        simp [firstIdx, hac]
      rw [hstep, ih h2]
      cases firstIdx c l2 with
      | none => simp
      | some i =>
          exact congrArg some (show i + as.length + 1 = i + (a :: as).length by
            rw [List.length_cons]; omega)

/-- C4.  The classification parser slices the model text from its first
opening brace to its last closing brace and `json.loads`-parses that
substring: whenever the text decomposes as `pre ++ mid ++ post` with no
opening brace in `pre`, no closing brace in `post`, and `mid` delimited
by braces and parseable as the JSON value `v`, the parser returns
exactly `v`; in particular, on the model text
`"noise \x7b\"Priority Level\": \"High\"\x7d noise"` it returns exactly
the dictionary with the single entry `Priority Level ↦ High`. -/
theorem c4_classification_round_trip :
    (∀ (pre mid post : String) (v : Json),
        '\x7b' ∉ pre.data → '\x7d' ∉ post.data →
        mid.data.head? = some '\x7b' → mid.data.getLast? = some '\x7d' →
        json_loads mid = some v →
        classifyParse (pre ++ mid ++ post) = v)
    ∧ classifyParse "noise \x7b\"Priority Level\": \"High\"\x7d noise" =
        Json.obj [("Priority Level", Json.str "High")] := by
  constructor
  · intro pre mid post v hpre hpost hhead hlast hload
    obtain ⟨t1, hmid1⟩ : ∃ t, mid.data = '\x7b' :: t := by
      cases h : mid.data with
      | nil => rw [h] at hhead; exact absurd hhead (by simp)
      | cons a t =>
          rw [h] at hhead
          simp only [List.head?_cons, Option.some.injEq] at hhead
          exact ⟨t, by rw [hhead]⟩
    obtain ⟨t2, hmid2⟩ : ∃ t, mid.data.reverse = '\x7d' :: t := by
      rw [← List.head?_reverse] at hlast
      cases h : mid.data.reverse with
      | nil => rw [h] at hlast; exact absurd hlast (by simp)
      | cons a t =>
          rw [h] at hlast
          simp only [List.head?_cons, Option.some.injEq] at hlast
          exact ⟨t, by rw [hlast]⟩
    have hm1 : 1 ≤ mid.data.length := by
      rw [hmid1]; simp
    have hdata : (pre ++ mid ++ post).data = pre.data ++ (mid.data ++ post.data) := by
      simp [String.data_append]
    have hfind : firstIdx '\x7b' (pre ++ mid ++ post).data = some pre.data.length := by
      rw [hdata, firstIdx_append_of_not_mem _ _ _ hpre, hmid1]
      simp [firstIdx]
    have hrev : (pre ++ mid ++ post).data.reverse =
        post.data.reverse ++ (mid.data.reverse ++ pre.data.reverse) := by
      rw [hdata]; simp
    have hpost1 : '\x7d' ∉ post.data.reverse := by
      rw [List.mem_reverse]; exact hpost
    have hrfind : firstIdx '\x7d' (pre ++ mid ++ post).data.reverse =
        some post.data.length := by
      rw [hrev, firstIdx_append_of_not_mem _ _ _ hpost1, hmid2]
      simp [firstIdx]
    have hlen : (pre ++ mid ++ post).data.length =
        pre.data.length + mid.data.length + post.data.length := by
      rw [hdata]; simp; omega
    have hpf : pyFind (pre ++ mid ++ post) '\x7b' = (pre.data.length : ℤ) := by
      unfold pyFind
      rw [show (pre ++ mid ++ post).toList = (pre ++ mid ++ post).data from rfl, hfind]
    have hpr : pyRfind (pre ++ mid ++ post) '\x7d' =
        (pre.data.length : ℤ) + mid.data.length - 1 := by
      unfold pyRfind
      rw [show (pre ++ mid ++ post).toList = (pre ++ mid ++ post).data from rfl, hrfind,
        hlen]
      push_cast
      ring
    unfold classifyParse
    rw [hpf, hpr]
    rw [if_pos (by constructor <;> omega)]
    have hslice : pySlice (pre ++ mid ++ post) ((pre.data.length : ℤ)).toNat
        (((pre.data.length : ℤ) + mid.data.length - 1) + 1).toNat = mid := by
      unfold pySlice
      have ha : ((pre.data.length : ℤ)).toNat = pre.data.length := by omega
      have hb : (((pre.data.length : ℤ) + mid.data.length - 1) + 1).toNat =
          pre.data.length + mid.data.length := by omega
      rw [ha, hb]
      rw [show (pre ++ mid ++ post).toList = pre.data ++ (mid.data ++ post.data) from hdata]
      rw [show pre.data.length + mid.data.length - pre.data.length = mid.data.length by omega]
      rw [List.drop_left pre.data (mid.data ++ post.data)]
      rw [List.take_left mid.data post.data]
    rw [hslice, hload]
  · rfl

/-- Witness for the general part of C4 at concrete inputs (the second
conjunct of the theorem is already closed): decomposing
`"noise " ++ json ++ " noise"` around a brace-delimited JSON object
recovers exactly the parsed object. -/
theorem c4_classification_round_trip_witness :
    classifyParse ("noise " ++ "\x7b\"Priority Level\": \"High\"\x7d" ++ " noise") =
      Json.obj [("Priority Level", Json.str "High")] :=
  c4_classification_round_trip.1 "noise " "\x7b\"Priority Level\": \"High\"\x7d" " noise"
    (Json.obj [("Priority Level", Json.str "High")])
    (by decide) (by decide) (by decide) (by decide) (by rfl)

/-- C5.  Classification failure fallback: the parsing step of
`classify_requirements` never throws — on a model text with no opening brace it
returns the `No valid JSON found in response` error dict carrying the
original full text as `raw_response`, and when a brace-delimited
candidate is found but fails to `json.loads`-parse, it returns the
`Failed to parse classification` error dict, again carrying the
original text. -/
theorem c5_classification_fallback (response : String) :
    ('\x7b' ∉ response.data →
        classifyParse response =
          Json.obj [("error", Json.str "No valid JSON found in response"),
                    ("raw_response", Json.str response)])
    ∧ (0 ≤ pyFind response '\x7b' →
       pyFind response '\x7b' < pyRfind response '\x7d' + 1 →
       json_loads (pySlice response (pyFind response '\x7b').toNat
          (pyRfind response '\x7d' + 1).toNat) = none →
       classifyParse response =
          Json.obj [("error", Json.str "Failed to parse classification"),
                    ("raw_response", Json.str response)]) := by
  constructor
  · intro h
    have hf : firstIdx '\x7b' response.toList = none :=
      firstIdx_eq_none_of_not_mem _ _ h
    have hpf : pyFind response '\x7b' = -1 := by
      unfold pyFind
      rw [hf]
    unfold classifyParse
    rw [hpf]
    rw [if_neg]
    intro hcontra
    omega
  · intro h1 h2 hparse
    unfold classifyParse
    rw [if_pos ⟨h1, h2⟩, hparse]

/-- Witness for C5 at concrete inputs: a brace-free text falls back to
the `No valid JSON found` dict, and a text whose brace-delimited slice
is not JSON falls back to the `Failed to parse classification` dict. -/
theorem c5_classification_fallback_witness :
    classifyParse "no braces here" =
      Json.obj [("error", Json.str "No valid JSON found in response"),
                ("raw_response", Json.str "no braces here")]
    ∧ classifyParse "a\x7bnot json\x7db" =
      Json.obj [("error", Json.str "Failed to parse classification"),
                ("raw_response", Json.str "a\x7bnot json\x7db")] :=
  ⟨(c5_classification_fallback "no braces here").1 (by decide),
   (c5_classification_fallback "a\x7bnot json\x7db").2 (by decide) (by decide) (by rfl)⟩
